import Mathlib

/-!
Verification of the Riot API access layer (`RiotApiService`, `RateLimiter`,
region table, response cache, error classifier, identity resolution).
Each definition is a shallow embedding of the corresponding TypeScript
function; time is modelled as an integer millisecond count (`Date.now()`)
passed explicitly, and the mutable service state (cache, two rate-limiter
windows, current time) is threaded as a value.
-/

/-! ## JavaScript string primitives used by the source -/

/-- Whitespace test for characters (JS semantics at the ASCII level). -/
def isWsChar (c : Char) : Bool := c.isWhitespace

/-- JS `String.prototype.trim`: drop whitespace at both ends. -/
def trimChars (cs : List Char) : List Char :=
  ((cs.dropWhile isWsChar).reverse.dropWhile isWsChar).reverse

/-- JS `s.trim()` on packed strings. -/
def jsTrim (s : String) : String := String.mk (trimChars s.data)

/-- JS `s.toLowerCase()` (ASCII, which covers every region code used). -/
def jsToLower (s : String) : String := String.mk (s.data.map Char.toLower)

/-- JS `s.split('#')` at the character-list level. -/
def splitHashChars : List Char → List (List Char)
  | [] => [[]]
  | c :: rest =>
    let r := splitHashChars rest
    if c == '#' then [] :: r
    else
      match r with
      | [] => [[c]]
      | h :: t => (c :: h) :: t

/-- JS `s.split('#')` on packed strings. -/
def jsSplitHash (s : String) : List String :=
  (splitHashChars s.data).map String.mk

/-- JS `s.includes('#')`. -/
def strHasHash (s : String) : Bool := s.data.any (fun c => c == '#')

/-- Does the needle occur at the head of the haystack? -/
def charsMatchHere : List Char → List Char → Bool
  | [], _ => true
  | _ :: _, [] => false
  | n :: ns, h :: hs => n == h && charsMatchHere ns hs

/-- Does the needle occur anywhere in the haystack? -/
def charsFindSeq (needle : List Char) : List Char → Bool
  | [] => needle.isEmpty
  | h :: hs => charsMatchHere needle (h :: hs) || charsFindSeq needle hs

/-- JS `hay.includes(needle)` for strings. -/
def strContainsSub (hay needle : String) : Bool :=
  charsFindSeq needle.data hay.data

/-- Digits-to-number accumulator for `parseInt`. -/
def digitsToNat (cs : List Char) : Nat :=
  cs.foldl (fun n c => n * 10 + (c.toNat - 48)) 0

/-- JS `parseInt(s)` in base 10: skip leading whitespace, optional sign,
take the leading digit run; `none` models the `NaN` result. -/
def jsParseInt (s : String) : Option Int :=
  let t := s.data.dropWhile isWsChar
  let signed : Int × List Char :=
    match t with
    | '-' :: cs => (-1, cs)
    | '+' :: cs => (1, cs)
    | cs => (1, cs)
  let digits := signed.2.takeWhile Char.isDigit
  if digits.isEmpty then none
  else some (signed.1 * (digitsToNat digits : Nat))

/-- JS truthiness of an optional string (`undefined`/`null`/`""` are falsy). -/
def strTruthy : Option String → Bool
  | none => false
  | some s => !(s == "")

/-- JS truthiness of an optional number (`undefined`/`0` are falsy). -/
def numTruthy : Option Int → Bool
  | none => false
  | some n => !(n == 0)

/-! ## Region directory (`REGIONS`, `getRegionConfig`) -/

/-- `RegionConfig` from `models/riot-api`. -/
structure RegionConfig where
  platform : String
  region : String
  continent : String
deriving DecidableEq

/-- The `REGIONS` table, verbatim from the models file. -/
def REGIONS : List (String × RegionConfig) :=
  [ ( "na1", ⟨ "na1", "na1", "americas"⟩),
    ( "euw1", ⟨ "euw1", "euw1", "europe"⟩),
    ( "eune1", ⟨ "eune1", "eune1", "europe"⟩),
    ( "kr", ⟨ "kr", "kr", "asia"⟩),
    ( "jp1", ⟨ "jp1", "jp1", "asia"⟩),
    ( "br1", ⟨ "br1", "br1", "americas"⟩),
    ( "la1", ⟨ "la1", "la1", "americas"⟩),
    ( "la2", ⟨ "la2", "la2", "americas"⟩),
    ( "oc1", ⟨ "oc1", "oc1", "sea"⟩),
    ( "tr1", ⟨ "tr1", "tr1", "europe"⟩),
    ( "ru", ⟨ "ru", "ru", "europe"⟩),
    ( "ph2", ⟨ "ph2", "ph2", "sea"⟩),
    ( "sg2", ⟨ "sg2", "sg2", "sea"⟩),
    ( "th2", ⟨ "th2", "th2", "sea"⟩),
    ( "tw2", ⟨ "tw2", "tw2", "sea"⟩),
    ( "vn2", ⟨ "vn2", "vn2", "sea"⟩) ]

/-- The property names every JS object literal inherits from
`Object.prototype`; bracket access on `REGIONS` with one of these keys
returns the inherited member (a function, or `Object.prototype` itself for
`__proto__`), which is truthy. -/
def objectProtoKeys : List String :=
  [ "constructor", "__proto__", "hasOwnProperty", "isPrototypeOf",
    "propertyIsEnumerable", "toLocaleString", "toString", "valueOf",
    "__defineGetter__", "__defineSetter__", "__lookupGetter__",
    "__lookupSetter__"]

/-- Outcome of `getRegionConfig`: an own table entry, a truthy inherited
`Object.prototype` member returned without a throw (its `platform`,
`region` and `continent` fields read back as `undefined`), or the thrown
`Invalid region` error for a falsy (`undefined`) lookup. -/
inductive RegionResolution where
  | entry (cfg : RegionConfig)
  | junk
  | invalid
deriving DecidableEq

/-- `RiotApiService.getRegionConfig`: `REGIONS[region.toLowerCase()]` is a
JS bracket access, so it consults the prototype chain: an own key yields
its entry, an absent key naming an `Object.prototype` member yields that
truthy inherited value (and the `!regionConfig` guard does not throw),
and any other absent key yields `undefined` and the thrown
`Invalid region` error. -/
def getRegionConfig (region : String) : RegionResolution :=
  match REGIONS.lookup (jsToLower region) with
  | some cfg => RegionResolution.entry cfg
  | none =>
    if jsToLower region ∈ objectProtoKeys then RegionResolution.junk
    else RegionResolution.invalid

/-- The host of `buildUrl`'s platform-routed URL
`https://<platform>.api.riotgames.com`: for a junk resolution the template
interpolates the `undefined` platform field as the literal text
`undefined`, producing a transport attempt against
`undefined.api.riotgames.com`; `none` models the propagated
`Invalid region` throw. -/
def buildUrlHost (region : String) : Option String :=
  match getRegionConfig region with
  | RegionResolution.entry cfg => some (cfg.platform ++ ".api.riotgames.com")
  | RegionResolution.junk => some ( "undefined.api.riotgames.com")
  | RegionResolution.invalid => none

/-! ## Rate limiter (`RateLimiter` class) -/

/-- The `RateLimiter` class state: `requests`, `limit`, `windowMs`. -/
structure RateLimiter where
  requests : List Int
  limit : Nat
  windowMs : Int
deriving DecidableEq

/-- The filter step of `tryRequest`: keep timestamps with `now - time < windowMs`. -/
def RateLimiter.pruned (l : RateLimiter) (now : Int) : List Int :=
  l.requests.filter (fun t => now - t < l.windowMs)

/-- `RateLimiter.tryRequest`: prune, then record `now` and return `true`
iff the remaining count is below `limit`. -/
def RateLimiter.tryRequest (l : RateLimiter) (now : Int) : Bool × RateLimiter :=
  let kept := l.pruned now
  if kept.length < l.limit then (true, { l with requests := kept ++ [now] })
  else (false, { l with requests := kept })

/-- `Math.min(...requests)` (guarded by a non-emptiness check in the source). -/
def listMin : List Int → Int
  | [] => 0
  | [t] => t
  | t :: u :: rest => min t (listMin (u :: rest))

/-- `RateLimiter.getRetryAfter`: `0` when no timestamps are recorded, else
`max 0 (windowMs - (now - oldest))`. -/
def RateLimiter.getRetryAfter (l : RateLimiter) (now : Int) : Int :=
  if l.requests.length = 0 then 0
  else max 0 (l.windowMs - (now - listMin l.requests))

/-- `RiotApiService.applyRateLimit`: try the global window, on denial sleep
its `getRetryAfter`; then try the app window at the (possibly advanced)
time, on denial sleep its `getRetryAfter`. Returns the two window states
and the time at which the transport call is then issued. -/
def applyRateLimit (g a : RateLimiter) (now : Int) : RateLimiter × RateLimiter × Int :=
  let gr := g.tryRequest now
  let now1 := if gr.1 then now else now + gr.2.getRetryAfter now
  let ar := a.tryRequest now1
  let now2 := if ar.1 then now1 else now1 + ar.2.getRetryAfter now1
  (gr.2, ar.2, now2)

/-- A fresh limiter as built by `initializeRateLimiters`. -/
def freshLimiter (limit : Nat) (windowMs : Int) : RateLimiter :=
  ⟨[], limit, windowMs⟩

/-- Run a sequence of admissions at the given times, returning the booleans. -/
def admitSeq (l : RateLimiter) : List Int → List Bool
  | [] => []
  | t :: ts => (l.tryRequest t).1 :: admitSeq (l.tryRequest t).2 ts

/-- The literal reading of the spec sentence for the drop step: drop only
timestamps strictly older than `now - windowDuration` (keep `now - t ≤
windowMs`), then admit iff the remaining count is below the quota. Written
from the claim's words, for comparison with `RateLimiter.tryRequest`. -/
def tryAdmitSpecLiteral (l : RateLimiter) (now : Int) : Bool × RateLimiter :=
  let kept := l.requests.filter (fun t => now - t ≤ l.windowMs)
  if kept.length < l.limit then (true, { l with requests := kept ++ [now] })
  else (false, { l with requests := kept })

/-- An observation step on one window: `admit` is a `tryRequest` call
(mutating), `retryQuery` is a `getRetryAfter` call (read-only). -/
inductive LimOp where
  | admitCall
  | retryQuery
deriving DecidableEq

/-- Apply one observation step at the given time. -/
def applyOp (l : RateLimiter) : LimOp → Int → RateLimiter
  | .admitCall, t => (l.tryRequest t).2
  | .retryQuery, _ => l

/-- Run a call trace against a window. -/
def execTrace (l : RateLimiter) : List (LimOp × Int) → RateLimiter
  | [] => l
  | (op, t) :: rest => execTrace (applyOp l op t) rest

/-- The time of the last call in a trace (`0` for the empty trace). -/
def lastTime : List (LimOp × Int) → Int
  | [] => 0
  | [(_, t)] => t
  | _ :: p :: rest => lastTime (p :: rest)

/-- The time of the last `admit` call in a trace, when any. -/
def lastAdmitTime : List (LimOp × Int) → Option Int
  | [] => none
  | (op, t) :: rest =>
    match lastAdmitTime rest with
    | some T => some T
    | none => if op == LimOp.admitCall then some t else none

/-! ## Response cache (`this.cache : Map<string, CachedData<any>>`) -/

/-- `CachedData<T>` from the models file. -/
structure CachedData (α : Type) where
  data : α
  timestamp : Int
  ttl : Int
deriving DecidableEq

/-- The service cache, a JS `Map` modelled as an association list in
insertion order (keys are unique for maps built by the operations below). -/
abbrev Cache (α : Type) := List (String × CachedData α)

/-- JS `Map.set`: replace in place when the key exists, else append. -/
def mapSet {α : Type} : Cache α → String → CachedData α → Cache α
  | [], k, c => [(k, c)]
  | (k', c') :: rest, k, c =>
    if k' == k then (k, c) :: rest else (k', c') :: mapSet rest k c

/-- JS `Map.delete`: remove the entries with the given key. -/
def mapDelete {α : Type} (m : Cache α) (k : String) : Cache α :=
  m.filter (fun p => !(p.1 == k))

/-- `RiotApiService.getFromCache`: expired entries (`now > timestamp + ttl`)
are deleted and reported absent; live entries are returned unchanged. -/
def getFromCache {α : Type} (m : Cache α) (k : String) (now : Int) :
    Option α × Cache α :=
  match m.lookup k with
  | none => (none, m)
  | some c =>
    if now > c.timestamp + c.ttl then (none, mapDelete m k)
    else (some c.data, m)

/-- `RiotApiService.setCache`: store with the current time as `timestamp`. -/
def setCache {α : Type} (m : Cache α) (k : String) (v : α) (ttl : Int)
    (now : Int) : Cache α :=
  mapSet m k ⟨v, now, ttl⟩

/-- `RiotApiService.getCacheStats`: report `(size, keys)`; the returned cache
component records that the method leaves the map untouched. -/
def getCacheStats {α : Type} (m : Cache α) : (Nat × List String) × Cache α :=
  ((m.length, m.map (fun p => p.1)), m)

/-! ## Error classifier (`handleApiError`) -/

/-- The failure taxonomy: one constructor per distinct `throw` site of
`handleApiError`, plus the two client-side failures thrown by
`getRegionConfig` and `getSummonerByName`. `rateLimited` carries the
computed wait in ms (`none` models the `NaN` of a non-numeric header). -/
inductive ApiFailure where
  | badRequest (msg : String)
  | unauthorized
  | forbidden
  | notFound
  | unsupportedPayload
  | rateLimited (waitMs : Option Int)
  | serverError
  | serviceUnavailable (msg : String)
  | unknownStatus (status : Int) (msg : String)
  | invalidRegion (region : String)
  | notResolved (name : String)
deriving DecidableEq

/-- The `error.message` string the source attaches to each thrown failure. -/
def messageOf : ApiFailure → String
  | .badRequest m => "Bad Request: " ++ m
  | .unauthorized => "Unauthorized: Invalid API key"
  | .forbidden => "Forbidden: API key may be expired or lacking permissions"
  | .notFound => "Not Found: Summoner or data not found"
  | .unsupportedPayload => "Unsupported Media Type"
  | .rateLimited _ => "Rate limited by Riot API"
  | .serverError => "Internal Server Error: Riot API is experiencing issues"
  | .serviceUnavailable m => m
  | .unknownStatus s m => "API Error " ++ toString s ++ ": " ++ m
  | .invalidRegion r =>
      "Invalid region: " ++ r ++
      ". Supported regions: na1, euw1, eune1, kr, jp1, br1, la1, la2, oc1, tr1, ru, ph2, sg2, th2, tw2, vn2"
  | .notResolved n =>
      "Summoner \"" ++ n ++
      "\" not found. Please use full Riot ID format: gameName#tagLine (e.g., \"Faker#KR1\")"

/-- The default error message `HTTP <status>: <statusText>` used when the
structured error body is missing or fails to parse. -/
def defaultMsg (status : Int) (statusText : String) : String :=
  "HTTP " ++ toString status ++ ": " ++ statusText

/-- The 429 wait: `retryAfter ? parseInt(retryAfter) * 1000 : 1000`, with
JS truthiness on the header string and `none` for the `NaN` case. -/
def computeRetryWait (h : Option String) : Option Int :=
  match h with
  | none => some 1000
  | some s =>
    if s == "" then some 1000
    else (jsParseInt s).map (fun n => n * 1000)

/-- `RiotApiService.handleApiError`: the status-code switch. `bodyMsg` is
the parsed `errorBody.status.message` when the body parsed (`none` when
parsing failed or the field was absent, in which case the default message
is used and classification still succeeds). -/
def handleApiError (status : Int) (statusText : String) (bodyMsg : Option String)
    (retryHeader : Option String) : ApiFailure :=
  let errorMessage := bodyMsg.getD (defaultMsg status statusText)
  if status = 400 then .badRequest errorMessage
  else if status = 401 then .unauthorized
  else if status = 403 then .forbidden
  else if status = 404 then .notFound
  else if status = 415 then .unsupportedPayload
  else if status = 429 then .rateLimited (computeRetryWait retryHeader)
  else if status = 500 then .serverError
  else if status = 502 then .serviceUnavailable "Bad Gateway: Riot API is temporarily unavailable"
  else if status = 503 then .serviceUnavailable "Service Unavailable: Riot API is under maintenance"
  else .unknownStatus status errorMessage

/-- Decidable equality for `Except` results, used to evaluate concrete runs. -/
instance exceptDecEq {e a : Type} [DecidableEq e] [DecidableEq a] :
    DecidableEq (Except e a) := fun x y =>
  match x, y with
  | .error u, .error v =>
    if h : u = v then .isTrue (by rw [h]) else .isFalse (fun hh => h (Except.error.inj hh))
  | .error _, .ok _ => .isFalse (fun hh => Except.noConfusion hh)
  | .ok _, .error _ => .isFalse (fun hh => Except.noConfusion hh)
  | .ok u, .ok v =>
    if h : u = v then .isTrue (by rw [h]) else .isFalse (fun hh => h (Except.ok.inj hh))

/-! ## Gateway (`makeApiCall`) -/

/-- The transport collaborator's reply for one `fetch`. -/
structure ApiResponse (α : Type) where
  ok : Bool
  status : Int
  statusText : String
  bodyMsg : Option String
  retryHeader : Option String
  value : α
deriving DecidableEq

/-- The mutable service state threaded through a gateway call. -/
structure GwState (α : Type) where
  cache : Cache α
  global : RateLimiter
  app : RateLimiter
  now : Int
deriving DecidableEq

/-- The cache-lookup step of `makeApiCall`: consulted only when a truthy
`cacheKey` is supplied and caching is enabled. -/
def cacheProbe {α : Type} (enabled : Bool) (cacheKey : Option String)
    (m : Cache α) (now : Int) : Option α × Cache α :=
  if strTruthy cacheKey && enabled then getFromCache m (cacheKey.getD "") now
  else (none, m)

/-- `RiotApiService.makeApiCall`: cache probe, rate limiting, one transport
call, error classification (with the 429 courtesy sleep), cache write.
The `Nat` component counts transport invocations (0 or 1). -/
def makeApiCall {α : Type} (enabled : Bool) (cacheKey : Option String)
    (ttl : Option Int) (resp : ApiResponse α) (st : GwState α) :
    (Except ApiFailure α × GwState α) × Nat :=
  let probe := cacheProbe enabled cacheKey st.cache st.now
  match probe.1 with
  | some v => ((Except.ok v, { st with cache := probe.2 }), 0)
  | none =>
    let rl := applyRateLimit st.global st.app st.now
    if resp.ok then
      let cache2 :=
        if strTruthy cacheKey && numTruthy ttl && enabled then
          setCache probe.2 (cacheKey.getD "") resp.value (ttl.getD 0) rl.2.2
        else probe.2
      ((Except.ok resp.value, ⟨cache2, rl.1, rl.2.1, rl.2.2⟩), 1)
    else
      let failure := handleApiError resp.status resp.statusText resp.bodyMsg resp.retryHeader
      let now2 :=
        if resp.status = 429 then rl.2.2 + ((computeRetryWait resp.retryHeader).getD 0)
        else rl.2.2
      ((Except.error failure, ⟨probe.2, rl.1, rl.2.1, now2⟩), 1)

/-- `RiotApiService.getSummonerByPuuid` up to the gateway: `buildUrl`
resolves the region first — an `invalid` resolution throws
`Invalid region` with no transport call, while an own entry or a truthy
inherited junk value proceeds — then `makeApiCall` runs with the
`summoner:puuid:` cache key. -/
def getSummonerByPuuidCall {α : Type} (resp : ApiResponse α) (st : GwState α)
    (region puuid : String) (enabled : Bool) (ttlMs : Int) :
    (Except ApiFailure α × GwState α) × Nat :=
  match getRegionConfig region with
  | RegionResolution.invalid => ((Except.error (.invalidRegion region), st), 0)
  | _ => makeApiCall enabled (some ("summoner:puuid:" ++ puuid)) (some ttlMs) resp st

/-- Two successive gateway calls with the same cache key against a fresh
service state (empty cache, the two windows of `initializeRateLimiters`
with the given per-tier quotas), the second issued at time `now2`. -/
def twoCallRun (α : Type) (k : String) (T : Int) (resp : ApiResponse α)
    (gl al : Nat) (now1 now2 : Int) :
    ((Except ApiFailure α × GwState α) × Nat) ×
      ((Except ApiFailure α × GwState α) × Nat) :=
  let r1 := makeApiCall true (some k) (some T) resp
    ⟨[], freshLimiter gl 1000, freshLimiter al 120000, now1⟩
  let r2 := makeApiCall true (some k) (some T) resp { r1.1.2 with now := now2 }
  (r1, r2)

/-! ## Identity resolution (`getSummonerByName` and its fallback loop) -/

/-- The summoner record fields used by the resolution protocol. -/
structure RiotSummoner where
  id : String
  puuid : String
  name : String
  summonerLevel : Int
deriving DecidableEq

/-- The `tagLineMap` table from `getDefaultTagLinesForRegion`. -/
def defaultTagLineTable : List (String × List String) :=
  [ ( "americas", [ "NA1", "BR1", "LAN", "LAS", "0000"]),
    ( "europe", [ "EUW", "EUNE", "TR1", "RU", "0000"]),
    ( "asia", [ "KR1", "JP1", "0000"]),
    ( "sea", [ "OCE", "PH2", "SG2", "TH2", "TW2", "VN2", "0000"]) ]

/-- `getDefaultTagLinesForRegion`: resolve the region (propagating the
`Invalid region` failure as `none`), then look up its continent in the
table with `['0000']` as fallback. -/
def getDefaultTagLinesForRegion (region : String) : Option (List String) :=
  match getRegionConfig region with
  | RegionResolution.entry cfg =>
    some ((defaultTagLineTable.lookup cfg.continent).getD [ "0000"])
  | RegionResolution.junk => some [ "0000"]
  | RegionResolution.invalid => none

/-- The candidate loop of `getSummonerByName`: try the two-step chain with
each tagLine in turn; an error whose message contains `'Not Found'` advances
to the next candidate, any other error is rethrown; an exhausted list throws
the dedicated `Summoner "<name>" not found` error. `chain` is the two-step
`getSummonerByRiotId` call for a fixed gameName and region. -/
def tryCandidates (chain : String → Except ApiFailure RiotSummoner)
    (name : String) : List String → Except ApiFailure RiotSummoner
  | [] => Except.error (.notResolved name)
  | tag :: rest =>
    match chain tag with
    | Except.ok s => Except.ok s
    | Except.error e =>
      if strContainsSub (messageOf e) "Not Found" then tryCandidates chain name rest
      else Except.error e

/-- `RiotApiService.getSummonerByName`: when the handle contains `'#'`,
split on `'#'` and call the two-step chain with the trimmed first two
segments; otherwise derive the candidate tagLines for the region and run
the fallback loop. `chain gameName tagLine` abstracts the two-step
`getSummonerByRiotId` network chain. -/
def getSummonerByName (chain : String → String → Except ApiFailure RiotSummoner)
    (summonerName region : String) : Except ApiFailure RiotSummoner :=
  if strHasHash summonerName then
    let parts := jsSplitHash summonerName
    chain (jsTrim (parts.getD 0 "")) (jsTrim (parts.getD 1 ""))
  else
    match getDefaultTagLinesForRegion region with
    | none => Except.error (.invalidRegion region)
    | some tags => tryCandidates (chain summonerName) summonerName tags

/-! ## Helper lemmas -/

theorem tryRequest_eq (l : RateLimiter) (now : Int) :
    l.tryRequest now =
      if (l.pruned now).length < l.limit
      then (true, { l with requests := l.pruned now ++ [now] })
      else (false, { l with requests := l.pruned now }) := rfl

theorem mem_pruned {l : RateLimiter} {now t : Int} (h : t ∈ l.pruned now) :
    t ∈ l.requests ∧ now - t < l.windowMs := by
  have := List.mem_filter.mp h
  exact ⟨this.1, by simpa using this.2⟩

theorem getRetryAfter_nonneg (l : RateLimiter) (now : Int) :
    0 ≤ l.getRetryAfter now := by
  unfold RateLimiter.getRetryAfter
  split
  · exact le_refl 0
  · exact le_max_left 0 _

/-- C2 (counterexample): the claim's literal drop rule keeps a timestamp
exactly `windowDuration` old (only strictly older ones are dropped), so at
state `requests = [0]`, `quota = 1`, `window = 1000` and call time `1000`
it denies, while `tryRequest` drops that boundary timestamp and admits. -/
theorem c2_counterexample :
    (RateLimiter.tryRequest ⟨[0], 1, 1000⟩ 1000).1 = true ∧
    (tryAdmitSpecLiteral ⟨[0], 1, 1000⟩ 1000).1 = false := by decide

/-- C2 (amended): `tryRequest` drops every recorded timestamp whose age is
at least `windowDuration` (also the one exactly `windowDuration` old, not
only strictly older ones); it then returns `true` and records `now` exactly
when the remaining count is below the quota, and returns `false` without
recording otherwise. With quota 2 and window 1000ms, three admissions
within 1000ms yield `[true, true, false]`, and once at least the window has
elapsed since the second admission, a further admission yields `true`. -/
theorem c2_amended (l : RateLimiter) (now : Int) (hw : 0 < l.windowMs) :
    (∀ t ∈ ((l.tryRequest now).2).requests, now - t < l.windowMs) ∧
    ((l.tryRequest now).1 = true ↔ (l.pruned now).length < l.limit) ∧
    ((l.tryRequest now).1 = false → ((l.tryRequest now).2).requests = l.pruned now) ∧
    ((l.tryRequest now).1 = true → ((l.tryRequest now).2).requests = l.pruned now ++ [now]) ∧
    (∀ t0 t1 t2 t3 : Int, t0 ≤ t1 → t1 ≤ t2 → t2 - t0 < 1000 → 1000 ≤ t3 - t1 →
      admitSeq (freshLimiter 2 1000) [t0, t1, t2, t3] = [true, true, false, true]) := by
  refine ⟨?_, ?_, ?_, ?_, ?_⟩
  · intro t ht
    rw [tryRequest_eq] at ht
    by_cases hlen : (l.pruned now).length < l.limit
    · rw [if_pos hlen] at ht
      simp only [List.mem_append, List.mem_singleton] at ht
      rcases ht with h | h
      · exact (mem_pruned h).2
      · subst h; simpa using hw
    · rw [if_neg hlen] at ht
      exact (mem_pruned ht).2
  · rw [tryRequest_eq]; split <;> simp_all
  · rw [tryRequest_eq]; split <;> simp_all
  · rw [tryRequest_eq]; split <;> simp_all
  · intro t0 t1 t2 t3 h01 h12 h20 h31
    have k10 : t1 - t0 < 1000 := by omega
    have k21 : t2 - t1 < 1000 := by omega
    have k30 : ¬ (t3 - t0 < 1000) := by omega
    have k31 : ¬ (t3 - t1 < 1000) := by omega
    have s1 : (freshLimiter 2 1000).tryRequest t0 = (true, ⟨[t0], 2, 1000⟩) := by
      simp [tryRequest_eq, RateLimiter.pruned, freshLimiter]
    have s2 : RateLimiter.tryRequest ⟨[t0], 2, 1000⟩ t1 = (true, ⟨[t0, t1], 2, 1000⟩) := by
      simp [tryRequest_eq, RateLimiter.pruned, k10]
    have s3 : RateLimiter.tryRequest ⟨[t0, t1], 2, 1000⟩ t2 = (false, ⟨[t0, t1], 2, 1000⟩) := by
      simp [tryRequest_eq, RateLimiter.pruned, h20, k21]
    have s4 : RateLimiter.tryRequest ⟨[t0, t1], 2, 1000⟩ t3 = (true, ⟨[t3], 2, 1000⟩) := by
      simp [tryRequest_eq, RateLimiter.pruned, k30, k31]
    simp [admitSeq, s1, s2, s3, s4]

/-- C2 (witness): the amended theorem applied to a concrete window. -/
theorem c2_amended_witness :
    (∀ t ∈ ((RateLimiter.tryRequest ⟨[3], 2, 1000⟩ 5).2).requests, 5 - t < (1000 : Int)) ∧
    ((RateLimiter.tryRequest ⟨[3], 2, 1000⟩ 5).1 = true ↔
      ((RateLimiter.pruned ⟨[3], 2, 1000⟩ 5).length < 2)) ∧
    ((RateLimiter.tryRequest ⟨[3], 2, 1000⟩ 5).1 = false →
      ((RateLimiter.tryRequest ⟨[3], 2, 1000⟩ 5).2).requests = RateLimiter.pruned ⟨[3], 2, 1000⟩ 5) ∧
    ((RateLimiter.tryRequest ⟨[3], 2, 1000⟩ 5).1 = true →
      ((RateLimiter.tryRequest ⟨[3], 2, 1000⟩ 5).2).requests = RateLimiter.pruned ⟨[3], 2, 1000⟩ 5 ++ [5]) ∧
    (∀ t0 t1 t2 t3 : Int, t0 ≤ t1 → t1 ≤ t2 → t2 - t0 < 1000 → 1000 ≤ t3 - t1 →
      admitSeq (freshLimiter 2 1000) [t0, t1, t2, t3] = [true, true, false, true]) :=
  c2_amended ⟨[3], 2, 1000⟩ 5 (by decide)
/-- C1 (counterexample): with the global window at `quota 1, window 1000ms,
requests [5]` and a call at time 10, global admission is denied; the
gateway sleeps the 995ms `retryAfter` and then issues the transport call
(count 1) without ever re-evaluating the global window: the final global
window still holds only the pre-call timestamp 5, so no subsequent
successful admission was recorded before the transport call. -/
theorem c1_counterexample :
    (RateLimiter.tryRequest ⟨[5], 1, 1000⟩ 10).1 = false ∧
    (makeApiCall true none none
        (⟨true, 200, "OK", none, none, 42⟩ : ApiResponse Nat)
        ⟨[], ⟨[5], 1, 1000⟩, ⟨[], 1, 1000⟩, 10⟩).2 = 1 ∧
    ((makeApiCall true none none
        (⟨true, 200, "OK", none, none, 42⟩ : ApiResponse Nat)
        ⟨[], ⟨[5], 1, 1000⟩, ⟨[], 1, 1000⟩, 10⟩).1.2).global.requests = [5] ∧
    (∀ t ∈ ((makeApiCall true none none
        (⟨true, 200, "OK", none, none, 42⟩ : ApiResponse Nat)
        ⟨[], ⟨[5], 1, 1000⟩, ⟨[], 1, 1000⟩, 10⟩).1.2).global.requests, t < 10) := by
  decide

/-- C1 (amended): when a window denies admission, `applyRateLimit` sleeps
that window's reported `retryAfter` once and then proceeds to the next step
without re-evaluating the window and without recording any timestamp in it
(its state is only the pruned pre-call list); when both windows deny, the
two waits happen in sequence. The transport call is then issued
unconditionally. -/
theorem c1_amended (g a : RateLimiter) (now : Int)
    (hg : (g.tryRequest now).1 = false) :
    ((applyRateLimit g a now).1 = (g.tryRequest now).2) ∧
    ((applyRateLimit g a now).1.requests = g.pruned now) ∧
    (∀ t ∈ (applyRateLimit g a now).1.requests, t ∈ g.requests) ∧
    ((applyRateLimit g a now).2.2 ≥ now + ((g.tryRequest now).2.getRetryAfter now)) ∧
    (((a.tryRequest (now + ((g.tryRequest now).2.getRetryAfter now))).1 = false →
      (applyRateLimit g a now).2.2 =
        now + ((g.tryRequest now).2.getRetryAfter now) +
        ((a.tryRequest (now + ((g.tryRequest now).2.getRetryAfter now))).2.getRetryAfter
          (now + ((g.tryRequest now).2.getRetryAfter now))))) := by
  have hreq : ((g.tryRequest now).2).requests = g.pruned now := by
    rw [tryRequest_eq] at hg ⊢
    by_cases hlen : (g.pruned now).length < g.limit
    · rw [if_pos hlen] at hg; simp at hg
    · rw [if_neg hlen]
  refine ⟨?_, ?_, ?_, ?_, ?_⟩
  · simp [applyRateLimit]
  · simp [applyRateLimit, hreq]
  · intro t ht
    simp only [applyRateLimit] at ht
    rw [hreq] at ht
    exact (mem_pruned ht).1
  · have hc := getRetryAfter_nonneg
      ((a.tryRequest (now + ((g.tryRequest now).2.getRetryAfter now))).2)
      (now + ((g.tryRequest now).2.getRetryAfter now))
    simp only [applyRateLimit, hg, Bool.false_eq_true, if_false]
    split
    · omega
    · omega
  · intro ha
    simp only [applyRateLimit, hg, Bool.false_eq_true, if_false, ha]

/-- C1 (witness): the amended theorem at the counterexample state. -/
theorem c1_amended_witness :
    ((applyRateLimit ⟨[5], 1, 1000⟩ ⟨[], 1, 1000⟩ 10).1 =
      (RateLimiter.tryRequest ⟨[5], 1, 1000⟩ 10).2) ∧
    ((applyRateLimit ⟨[5], 1, 1000⟩ ⟨[], 1, 1000⟩ 10).1.requests =
      RateLimiter.pruned ⟨[5], 1, 1000⟩ 10) ∧
    (∀ t ∈ (applyRateLimit ⟨[5], 1, 1000⟩ ⟨[], 1, 1000⟩ 10).1.requests,
      t ∈ ([5] : List Int)) ∧
    ((applyRateLimit ⟨[5], 1, 1000⟩ ⟨[], 1, 1000⟩ 10).2.2 ≥
      10 + ((RateLimiter.tryRequest ⟨[5], 1, 1000⟩ 10).2.getRetryAfter 10)) ∧
    (((RateLimiter.tryRequest ⟨[], 1, 1000⟩
        (10 + ((RateLimiter.tryRequest ⟨[5], 1, 1000⟩ 10).2.getRetryAfter 10))).1 = false →
      (applyRateLimit ⟨[5], 1, 1000⟩ ⟨[], 1, 1000⟩ 10).2.2 =
        10 + ((RateLimiter.tryRequest ⟨[5], 1, 1000⟩ 10).2.getRetryAfter 10) +
        ((RateLimiter.tryRequest ⟨[], 1, 1000⟩
            (10 + ((RateLimiter.tryRequest ⟨[5], 1, 1000⟩ 10).2.getRetryAfter 10))).2.getRetryAfter
          (10 + ((RateLimiter.tryRequest ⟨[5], 1, 1000⟩ 10).2.getRetryAfter 10))))) :=
  c1_amended ⟨[5], 1, 1000⟩ ⟨[], 1, 1000⟩ 10 (by decide)
theorem tryRequest_mem_age {l : RateLimiter} {now t : Int} (hw : 0 < l.windowMs)
    (h : t ∈ ((l.tryRequest now).2).requests) : now - t < l.windowMs := by
  rw [tryRequest_eq] at h
  by_cases hlen : (l.pruned now).length < l.limit
  · rw [if_pos hlen] at h
    simp only [List.mem_append, List.mem_singleton] at h
    rcases h with h | h
    · exact (mem_pruned h).2
    · subst h; simpa using hw
  · rw [if_neg hlen] at h
    exact (mem_pruned h).2

theorem applyOp_windowMs (l : RateLimiter) (op : LimOp) (t : Int) :
    (applyOp l op t).windowMs = l.windowMs := by
  cases op with
  | admitCall =>
    simp only [applyOp, tryRequest_eq]
    split <;> rfl
  | retryQuery => rfl

theorem applyOp_limit (l : RateLimiter) (op : LimOp) (t : Int) :
    (applyOp l op t).limit = l.limit := by
  cases op with
  | admitCall =>
    simp only [applyOp, tryRequest_eq]
    split <;> rfl
  | retryQuery => rfl

theorem applyOp_len_le (l : RateLimiter) (op : LimOp) (t : Int)
    (h : l.requests.length ≤ l.limit) :
    (applyOp l op t).requests.length ≤ (applyOp l op t).limit := by
  cases op with
  | admitCall =>
    simp only [applyOp, tryRequest_eq]
    split
    · next hlen => simpa using hlen
    · next hlen =>
      simp only
      calc (l.pruned t).length ≤ l.requests.length := List.length_filter_le _ _
        _ ≤ l.limit := h
  | retryQuery => exact h

theorem execTrace_limit (tr : List (LimOp × Int)) (l : RateLimiter) :
    (execTrace l tr).limit = l.limit := by
  induction tr generalizing l with
  | nil => rfl
  | cons p rest ih =>
    obtain ⟨op, t⟩ := p
    rw [execTrace, ih, applyOp_limit]

theorem execTrace_len (tr : List (LimOp × Int)) (l : RateLimiter)
    (h : l.requests.length ≤ l.limit) :
    (execTrace l tr).requests.length ≤ (execTrace l tr).limit := by
  induction tr generalizing l with
  | nil => exact h
  | cons p rest ih =>
    obtain ⟨op, t⟩ := p
    exact ih _ (applyOp_len_le l op t h)

theorem execTrace_age (tr : List (LimOp × Int)) (l : RateLimiter) (hw : 0 < l.windowMs) :
    ∀ t ∈ (execTrace l tr).requests,
      (∃ T, lastAdmitTime tr = some T ∧ T - t < l.windowMs) ∨
      (lastAdmitTime tr = none ∧ t ∈ l.requests) := by
  induction tr generalizing l with
  | nil => intro t ht; exact Or.inr ⟨rfl, ht⟩
  | cons p rest ih =>
    obtain ⟨op, time⟩ := p
    intro t ht
    have hw' : 0 < (applyOp l op time).windowMs := by
      rw [applyOp_windowMs]; exact hw
    rcases ih (applyOp l op time) hw' t ht with ⟨T, hT, hlt⟩ | ⟨hnone, hmem⟩
    · refine Or.inl ⟨T, ?_, ?_⟩
      · simp [lastAdmitTime, hT]
      · rwa [applyOp_windowMs] at hlt
    · cases op with
      | admitCall =>
        refine Or.inl ⟨time, ?_, ?_⟩
        · simp [lastAdmitTime, hnone]
        · exact tryRequest_mem_age hw hmem
      | retryQuery =>
        refine Or.inr ⟨?_, hmem⟩
        simp [lastAdmitTime, hnone]
/-- C3 (counterexample): timestamps are only pruned lazily, inside
`tryRequest`; a `getRetryAfter` call at a later time neither prunes nor
records. After the non-decreasing trace `tryAdmit at 0, retryAfter at
5000` on a `quota 1, window 1000ms` limiter, the recorded sequence still
holds the timestamp 0, which is 5000ms old at the time of the last call —
older than the window — so the claimed invariant fails as stated. -/
theorem c3_counterexample :
    ((0 : Int) ≤ 5000) ∧
    (execTrace (freshLimiter 1 1000)
      [(LimOp.admitCall, 0), (LimOp.retryQuery, 5000)]).requests = [0] ∧
    lastTime [(LimOp.admitCall, 0), (LimOp.retryQuery, 5000)] - 0 > (1000 : Int) := by
  decide

/-- C3 (amended): for every trace of `tryAdmit` and `retryAfter` calls on a
window with positive duration, every recorded timestamp is strictly within
`windowDuration` of the most recent `tryAdmit` call (between calls, and at a
later `retryAfter`, an entry may grow older than the window until the next
`tryAdmit` prunes it), and the length of the recorded sequence never
exceeds the quota. -/
theorem c3_amended (limit : Nat) (win : Int) (hw : 0 < win)
    (tr : List (LimOp × Int)) :
    ((execTrace (freshLimiter limit win) tr).requests.length ≤ limit) ∧
    (∀ t ∈ (execTrace (freshLimiter limit win) tr).requests,
      ∃ T, lastAdmitTime tr = some T ∧ T - t < win) := by
  constructor
  · have h := execTrace_len tr (freshLimiter limit win) (by simp [freshLimiter])
    rwa [execTrace_limit] at h
  · intro t ht
    rcases execTrace_age tr (freshLimiter limit win) hw t ht with h | ⟨_, hmem⟩
    · exact h
    · simp [freshLimiter] at hmem

/-- C3 (witness): the amended invariant at the counterexample trace. -/
theorem c3_amended_witness :
    ((execTrace (freshLimiter 1 1000)
        [(LimOp.admitCall, 0), (LimOp.retryQuery, 5000)]).requests.length ≤ 1) ∧
    (∀ t ∈ (execTrace (freshLimiter 1 1000)
        [(LimOp.admitCall, 0), (LimOp.retryQuery, 5000)]).requests,
      ∃ T, lastAdmitTime [(LimOp.admitCall, 0), (LimOp.retryQuery, 5000)] = some T ∧
        T - t < (1000 : Int)) :=
  c3_amended 1 1000 (by decide) [(LimOp.admitCall, 0), (LimOp.retryQuery, 5000)]
theorem mapSet_lookup_self {α : Type} (m : Cache α) (k : String) (c : CachedData α) :
    (mapSet m k c).lookup k = some c := by
  induction m with
  | nil => simp [mapSet, List.lookup]
  | cons p rest ih =>
    obtain ⟨k', c'⟩ := p
    by_cases h : k' = k
    · subst h; simp [mapSet, List.lookup]
    · simp only [mapSet, beq_iff_eq, h, if_false, List.lookup]
      have hne : (k == k') = false := by
        simp [beq_iff_eq]; exact fun hk => h hk.symm
      rw [hne]
      exact ih

theorem mapDelete_key_not_mem {α : Type} (m : Cache α) (k : String) :
    k ∉ (mapDelete m k).map (fun p => p.1) := by
  intro h
  obtain ⟨p, hp, hk⟩ := List.mem_map.mp h
  have hf := (List.mem_filter.mp hp).2
  rw [hk] at hf
  simp at hf

theorem mapDelete_mem {α : Type} {m : Cache α} {k : String}
    {p : String × CachedData α} (h : p ∈ mapDelete m k) : p ∈ m :=
  (List.mem_filter.mp h).1

/-- C4: a `put` followed immediately by a `get` with the same key returns
the stored value; a `get` at any time past `storedAt + ttl` returns absent
and evicts the entry, so a subsequent `stats()` no longer lists the key;
and `stats()` itself never mutates the cache. -/
theorem c4_cache (α : Type) (cache : Cache α) (k : String) (v : α)
    (ttlv now now2 : Int) (c : CachedData α)
    (hpos : 0 < ttlv) (hlook : cache.lookup k = some c)
    (hexp : now2 > c.timestamp + c.ttl) :
    (getFromCache (setCache cache k v ttlv now) k now =
      (some v, setCache cache k v ttlv now)) ∧
    (getFromCache cache k now2 = (none, mapDelete cache k)) ∧
    (k ∉ (getCacheStats (mapDelete cache k)).1.2) ∧
    (∀ m : Cache α, (getCacheStats m).2 = m) := by
  refine ⟨?_, ?_, mapDelete_key_not_mem cache k, fun m => rfl⟩
  · unfold getFromCache setCache
    rw [mapSet_lookup_self]
    have hle : ¬ (now > now + ttlv) := by omega
    dsimp only
    rw [if_neg hle]
  · unfold getFromCache
    rw [hlook]
    dsimp only
    rw [if_pos hexp]

/-- C4 (witness): the theorem at a concrete one-entry cache. -/
theorem c4_cache_witness :
    (getFromCache (setCache [( "k", (⟨7, 0, 5⟩ : CachedData Nat))] "k" 9 10 20) "k" 20 =
      (some 9, setCache [( "k", (⟨7, 0, 5⟩ : CachedData Nat))] "k" 9 10 20)) ∧
    (getFromCache [( "k", (⟨7, 0, 5⟩ : CachedData Nat))] "k" 100 =
      (none, mapDelete [( "k", (⟨7, 0, 5⟩ : CachedData Nat))] "k")) ∧
    ( "k" ∉ (getCacheStats (mapDelete [( "k", (⟨7, 0, 5⟩ : CachedData Nat))] "k")).1.2) ∧
    (∀ m : Cache Nat, (getCacheStats m).2 = m) :=
  c4_cache Nat [( "k", ⟨7, 0, 5⟩)] "k" 9 10 20 100 ⟨7, 0, 5⟩
    (by decide) (by decide) (by decide)
theorem getFromCache_snd {α : Type} (m : Cache α) (k : String) (now : Int) :
    (getFromCache m k now).2 = m ∨ (getFromCache m k now).2 = mapDelete m k := by
  unfold getFromCache
  cases h : m.lookup k with
  | none => exact Or.inl rfl
  | some c =>
    dsimp only
    split
    · exact Or.inr rfl
    · exact Or.inl rfl

theorem cacheProbe_snd {α : Type} (enabled : Bool) (cacheKey : Option String)
    (m : Cache α) (now : Int) :
    (cacheProbe enabled cacheKey m now).2 = m ∨
    ∃ k, cacheKey = some k ∧ (cacheProbe enabled cacheKey m now).2 = mapDelete m k := by
  unfold cacheProbe
  split
  · next hc =>
    rcases getFromCache_snd m (cacheKey.getD "") now with h | h
    · exact Or.inl h
    · refine Or.inr ⟨cacheKey.getD "", ?_, h⟩
      cases cacheKey with
      | none => simp [strTruthy] at hc
      | some k => rfl
  · exact Or.inl rfl

theorem makeApiCall_cache_nostore {α : Type} (enabled : Bool)
    (cacheKey : Option String) (ttl : Option Int) (resp : ApiResponse α)
    (st : GwState α)
    (hstore : (strTruthy cacheKey && numTruthy ttl && enabled) = false) :
    ((makeApiCall enabled cacheKey ttl resp st).1.2).cache =
      (cacheProbe enabled cacheKey st.cache st.now).2 := by
  simp only [makeApiCall]
  cases hp : (cacheProbe enabled cacheKey st.cache st.now).1 with
  | some v => rfl
  | none =>
    dsimp only
    split
    · rw [hstore]
      rfl
    · rfl

/-- C5 (counterexample): a successful gateway call with a cache key, an
absent ttl and caching enabled still probes the cache, and the probe evicts
an expired entry as a side effect: with an expired `"k"` entry in the cache,
the call succeeds, stores nothing, yet the cache contents change. -/
theorem c5_counterexample :
    ((makeApiCall true (some "k") none
        (⟨true, 200, "OK", none, none, 42⟩ : ApiResponse Nat)
        ⟨[( "k", ⟨7, 0, 5⟩)], ⟨[], 1, 1000⟩, ⟨[], 1, 1000⟩, 100⟩).1.1 =
      Except.ok 42) ∧
    ((makeApiCall true (some "k") none
        (⟨true, 200, "OK", none, none, 42⟩ : ApiResponse Nat)
        ⟨[( "k", ⟨7, 0, 5⟩)], ⟨[], 1, 1000⟩, ⟨[], 1, 1000⟩, 100⟩).1.2).cache = [] ∧
    ([( "k", (⟨7, 0, 5⟩ : CachedData Nat))] ≠ ([] : Cache Nat)) := by
  decide

/-- C5 (amended): when the cacheKey is absent, the ttl is absent, or the
cache flag is disabled, a gateway call stores nothing — no default ttl is
invented and no entry is added — and the final cache is either unchanged
or (only when a cacheKey was given) the original cache with that key's
expired entry lazily evicted by the lookup; in particular every surviving
entry was already present before the call. -/
theorem c5_amended (α : Type) (cacheKey : Option String) (ttl : Option Int)
    (enabled : Bool) (resp : ApiResponse α) (st : GwState α)
    (h : cacheKey = none ∨ ttl = none ∨ enabled = false) :
    (∀ p ∈ ((makeApiCall enabled cacheKey ttl resp st).1.2).cache, p ∈ st.cache) ∧
    (((makeApiCall enabled cacheKey ttl resp st).1.2).cache = st.cache ∨
      ∃ k, cacheKey = some k ∧
        ((makeApiCall enabled cacheKey ttl resp st).1.2).cache = mapDelete st.cache k) := by
  have hstore : (strTruthy cacheKey && numTruthy ttl && enabled) = false := by
    rcases h with h | h | h <;> simp [h, strTruthy, numTruthy]
  have hcache := makeApiCall_cache_nostore enabled cacheKey ttl resp st hstore
  have hdisj := cacheProbe_snd enabled cacheKey st.cache st.now
  constructor
  · intro p hp
    rw [hcache] at hp
    rcases hdisj with hd | ⟨k, _, hd⟩
    · rwa [hd] at hp
    · rw [hd] at hp
      exact mapDelete_mem hp
  · rw [hcache]
    exact hdisj

/-- C5 (witness): the amended theorem at the counterexample input. -/
theorem c5_amended_witness :
    (∀ p ∈ ((makeApiCall true (some "k") none
        (⟨true, 200, "OK", none, none, 42⟩ : ApiResponse Nat)
        ⟨[( "k", ⟨7, 0, 5⟩)], ⟨[], 1, 1000⟩, ⟨[], 1, 1000⟩, 100⟩).1.2).cache,
      p ∈ [( "k", (⟨7, 0, 5⟩ : CachedData Nat))]) ∧
    (((makeApiCall true (some "k") none
        (⟨true, 200, "OK", none, none, 42⟩ : ApiResponse Nat)
        ⟨[( "k", ⟨7, 0, 5⟩)], ⟨[], 1, 1000⟩, ⟨[], 1, 1000⟩, 100⟩).1.2).cache =
      [( "k", ⟨7, 0, 5⟩)] ∨
      ∃ k, (some "k" : Option String) = some k ∧
        ((makeApiCall true (some "k") none
            (⟨true, 200, "OK", none, none, 42⟩ : ApiResponse Nat)
            ⟨[( "k", ⟨7, 0, 5⟩)], ⟨[], 1, 1000⟩, ⟨[], 1, 1000⟩, 100⟩).1.2).cache =
          mapDelete [( "k", ⟨7, 0, 5⟩)] k) :=
  c5_amended Nat (some "k") none true ⟨true, 200, "OK", none, none, 42⟩
    ⟨[( "k", ⟨7, 0, 5⟩)], ⟨[], 1, 1000⟩, ⟨[], 1, 1000⟩, 100⟩ (Or.inr (Or.inl rfl))
theorem makeApiCall_hit {α : Type} (k : String) (c : CachedData α)
    (ttl : Option Int) (resp : ApiResponse α) (st : GwState α)
    (hk : ¬ k = "") (hlook : st.cache.lookup k = some c)
    (hlive : ¬ (st.now > c.timestamp + c.ttl)) :
    makeApiCall true (some k) ttl resp st = ((Except.ok c.data, st), 0) := by
  have hks : (k == "") = false := by simp [hk]
  have hprobe : cacheProbe true (some k) st.cache st.now = (some c.data, st.cache) := by
    unfold cacheProbe getFromCache
    simp only [strTruthy, hks, Bool.not_false, Bool.and_self, if_true, Option.getD_some,
      hlook]
    rw [if_neg hlive]
  simp only [makeApiCall, hprobe]
theorem makeApiCall_first_store {α : Type} (k : String) (T : Int)
    (resp : ApiResponse α) (gl al : Nat) (now1 : Int)
    (hk : ¬ k = "") (hT : 0 < T) (hgl : 0 < gl) (hal : 0 < al)
    (hok : resp.ok = true) :
    makeApiCall true (some k) (some T) resp
      ⟨[], freshLimiter gl 1000, freshLimiter al 120000, now1⟩ =
      ((Except.ok resp.value,
        ⟨[(k, ⟨resp.value, now1, T⟩)], ⟨[now1], gl, 1000⟩, ⟨[now1], al, 120000⟩, now1⟩), 1) := by
  have hks : (k == "") = false := by simp [hk]
  have hT0 : (T == 0) = false := by simp; omega
  have hg1 : RateLimiter.tryRequest ⟨[], gl, 1000⟩ now1 = (true, ⟨[now1], gl, 1000⟩) := by
    simp [tryRequest_eq, RateLimiter.pruned, hgl]
  have ha1 : RateLimiter.tryRequest ⟨[], al, 120000⟩ now1 = (true, ⟨[now1], al, 120000⟩) := by
    simp [tryRequest_eq, RateLimiter.pruned, hal]
  have hrl : applyRateLimit ⟨[], gl, 1000⟩ ⟨[], al, 120000⟩ now1 =
      (⟨[now1], gl, 1000⟩, ⟨[now1], al, 120000⟩, now1) := by
    simp [applyRateLimit, hg1, ha1]
  have hprobe : cacheProbe true (some k) ([] : Cache α) now1 = (none, []) := by
    simp [cacheProbe, getFromCache, List.lookup]
  simp only [makeApiCall, freshLimiter, hprobe, hrl, hok, if_true, strTruthy, numTruthy,
    hks, hT0, Bool.not_false, Bool.and_self, setCache, mapSet, Option.getD_some]

/-- C6: with caching enabled and a live entry under the cache key, a
gateway call returns the cached value immediately, makes no transport
invocation, and leaves the whole service state — both rate-limiter
windows included — unchanged; consequently two calls for the same key
within the ttl (against a fresh service state) invoke the transport
exactly once, and the second call answers from the cache. -/
theorem c6_cache_hit (α : Type) (k : String) (c : CachedData α)
    (ttl : Option Int) (resp : ApiResponse α) (st : GwState α)
    (T : Int) (resp2 : ApiResponse α) (gl al : Nat) (now1 now2 : Int)
    (hk : ¬ k = "") (hlook : st.cache.lookup k = some c)
    (hlive : ¬ (st.now > c.timestamp + c.ttl))
    (hT : 0 < T) (hgl : 0 < gl) (hal : 0 < al)
    (hok : resp2.ok = true) (h12 : ¬ (now2 > now1 + T)) :
    (makeApiCall true (some k) ttl resp st = ((Except.ok c.data, st), 0)) ∧
    ((twoCallRun α k T resp2 gl al now1 now2).1.2 +
      (twoCallRun α k T resp2 gl al now1 now2).2.2 = 1) ∧
    ((twoCallRun α k T resp2 gl al now1 now2).2.1.1 = Except.ok resp2.value) ∧
    ((twoCallRun α k T resp2 gl al now1 now2).2.1.2.global =
      (twoCallRun α k T resp2 gl al now1 now2).1.1.2.global) ∧
    ((twoCallRun α k T resp2 gl al now1 now2).2.1.2.app =
      (twoCallRun α k T resp2 gl al now1 now2).1.1.2.app) := by
  have hr1 := makeApiCall_first_store k T resp2 gl al now1 hk hT hgl hal hok
  have hr2 : makeApiCall true (some k) (some T) resp2
      ⟨[(k, ⟨resp2.value, now1, T⟩)], ⟨[now1], gl, 1000⟩, ⟨[now1], al, 120000⟩, now2⟩ =
      ((Except.ok resp2.value,
        ⟨[(k, ⟨resp2.value, now1, T⟩)], ⟨[now1], gl, 1000⟩, ⟨[now1], al, 120000⟩, now2⟩), 0) := by
    refine makeApiCall_hit k ⟨resp2.value, now1, T⟩ (some T) resp2 _ hk ?_ ?_
    · simp [List.lookup]
    · simpa using h12
  have htwo : twoCallRun α k T resp2 gl al now1 now2 =
      ((( Except.ok resp2.value,
        ⟨[(k, ⟨resp2.value, now1, T⟩)], ⟨[now1], gl, 1000⟩, ⟨[now1], al, 120000⟩, now1⟩), 1),
       ((Except.ok resp2.value,
        ⟨[(k, ⟨resp2.value, now1, T⟩)], ⟨[now1], gl, 1000⟩, ⟨[now1], al, 120000⟩, now2⟩), 0)) := by
    simp only [twoCallRun]
    rw [hr1]
    dsimp only
    rw [hr2]
  exact ⟨makeApiCall_hit k c ttl resp st hk hlook hlive, by simp [htwo], by simp [htwo],
    by simp [htwo], by simp [htwo]⟩

/-- C6 (witness): the theorem at concrete inputs. -/
theorem c6_cache_hit_witness :
    (makeApiCall true (some "k") none
        (⟨true, 200, "OK", none, none, 5⟩ : ApiResponse Nat)
        ⟨[( "k", ⟨9, 0, 50⟩)], ⟨[], 1, 1000⟩, ⟨[], 1, 1000⟩, 40⟩ =
      ((Except.ok 9, ⟨[( "k", ⟨9, 0, 50⟩)], ⟨[], 1, 1000⟩, ⟨[], 1, 1000⟩, 40⟩), 0)) ∧
    ((twoCallRun Nat "k" 50 ⟨true, 200, "OK", none, none, 5⟩ 1 1 100 120).1.2 +
      (twoCallRun Nat "k" 50 ⟨true, 200, "OK", none, none, 5⟩ 1 1 100 120).2.2 = 1) ∧
    ((twoCallRun Nat "k" 50 ⟨true, 200, "OK", none, none, 5⟩ 1 1 100 120).2.1.1 =
      Except.ok 5) ∧
    ((twoCallRun Nat "k" 50 ⟨true, 200, "OK", none, none, 5⟩ 1 1 100 120).2.1.2.global =
      (twoCallRun Nat "k" 50 ⟨true, 200, "OK", none, none, 5⟩ 1 1 100 120).1.1.2.global) ∧
    ((twoCallRun Nat "k" 50 ⟨true, 200, "OK", none, none, 5⟩ 1 1 100 120).2.1.2.app =
      (twoCallRun Nat "k" 50 ⟨true, 200, "OK", none, none, 5⟩ 1 1 100 120).1.1.2.app) :=
  c6_cache_hit Nat "k" ⟨9, 0, 50⟩ none ⟨true, 200, "OK", none, none, 5⟩
    ⟨[( "k", ⟨9, 0, 50⟩)], ⟨[], 1, 1000⟩, ⟨[], 1, 1000⟩, 40⟩
    50 ⟨true, 200, "OK", none, none, 5⟩ 1 1 100 120
    (by decide) (by decide) (by decide) (by decide) (by decide) (by decide)
    (by decide) (by decide)
/-- C7: the classifier maps each non-success status to exactly one typed
failure — 400 BadRequest, 401 Unauthorized, 403 Forbidden, 404 NotFound,
415 UnsupportedPayload, 429 RateLimited, 500 ServerError, 502/503
ServiceUnavailable, anything else Unknown; a 429 with a numeric
`retry-after` header waits the header value times 1000ms (header "2" gives
2000ms) and 1000ms with no header; and a missing or unparsable body only
falls back to the `HTTP <code>: <status text>` message — classification
itself always produces a failure value. -/
theorem c7_error_mapping (status : Int) (stext : String) (body : Option String)
    (h : Option String) (s : String) (n : Int)
    (hs : ¬ s = "") (hn : jsParseInt s = some n)
    (hstat : status ∉ ([400, 401, 403, 404, 415, 429, 500, 502, 503] : List Int)) :
    (handleApiError 400 stext body h = .badRequest (body.getD (defaultMsg 400 stext))) ∧
    (handleApiError 401 stext body h = .unauthorized) ∧
    (handleApiError 403 stext body h = .forbidden) ∧
    (handleApiError 404 stext body h = .notFound) ∧
    (handleApiError 415 stext body h = .unsupportedPayload) ∧
    (handleApiError 500 stext body h = .serverError) ∧
    (handleApiError 502 stext body h =
      .serviceUnavailable ( "Bad Gateway: Riot API is temporarily unavailable")) ∧
    (handleApiError 503 stext body h =
      .serviceUnavailable ( "Service Unavailable: Riot API is under maintenance")) ∧
    (handleApiError 429 stext body (some "2") = .rateLimited (some 2000)) ∧
    (handleApiError 429 stext body none = .rateLimited (some 1000)) ∧
    (handleApiError 429 stext body (some s) = .rateLimited ((jsParseInt s).map (fun m => m * 1000))) ∧
    (handleApiError 429 stext body (some s) = .rateLimited (some (n * 1000))) ∧
    (handleApiError status stext body h =
      .unknownStatus status (body.getD (defaultMsg status stext))) ∧
    (handleApiError status stext none h =
      .unknownStatus status (defaultMsg status stext)) := by
  have hne : status ≠ 400 ∧ status ≠ 401 ∧ status ≠ 403 ∧ status ≠ 404 ∧ status ≠ 415 ∧
      status ≠ 429 ∧ status ≠ 500 ∧ status ≠ 502 ∧ status ≠ 503 := by
    simpa using hstat
  obtain ⟨h400, h401, h403, h404, h415, h429, h500, h502, h503⟩ := hne
  have h2 : computeRetryWait (some "2") = some 2000 := by decide
  refine ⟨by norm_num [handleApiError], by norm_num [handleApiError],
    by norm_num [handleApiError], by norm_num [handleApiError],
    by norm_num [handleApiError], by norm_num [handleApiError],
    by norm_num [handleApiError], by norm_num [handleApiError],
    by norm_num [handleApiError, h2], by norm_num [handleApiError, computeRetryWait],
    by norm_num [handleApiError, computeRetryWait, hs],
    by norm_num [handleApiError, computeRetryWait, hs, hn],
    by simp [handleApiError, h400, h401, h403, h404, h415, h429, h500, h502, h503],
    by simp [handleApiError, h400, h401, h403, h404, h415, h429, h500, h502, h503]⟩

/-- C7 (witness): the mapping theorem at concrete inputs (status 418,
header "2"). -/
theorem c7_error_mapping_witness :
    (handleApiError 400 "teapot" (some "oops") none =
      .badRequest ((some "oops").getD (defaultMsg 400 "teapot"))) ∧
    (handleApiError 401 "teapot" (some "oops") none = .unauthorized) ∧
    (handleApiError 403 "teapot" (some "oops") none = .forbidden) ∧
    (handleApiError 404 "teapot" (some "oops") none = .notFound) ∧
    (handleApiError 415 "teapot" (some "oops") none = .unsupportedPayload) ∧
    (handleApiError 500 "teapot" (some "oops") none = .serverError) ∧
    (handleApiError 502 "teapot" (some "oops") none =
      .serviceUnavailable ( "Bad Gateway: Riot API is temporarily unavailable")) ∧
    (handleApiError 503 "teapot" (some "oops") none =
      .serviceUnavailable ( "Service Unavailable: Riot API is under maintenance")) ∧
    (handleApiError 429 "teapot" (some "oops") (some "2") = .rateLimited (some 2000)) ∧
    (handleApiError 429 "teapot" (some "oops") none = .rateLimited (some 1000)) ∧
    (handleApiError 429 "teapot" (some "oops") (some "2") =
      .rateLimited ((jsParseInt "2").map (fun m => m * 1000))) ∧
    (handleApiError 429 "teapot" (some "oops") (some "2") = .rateLimited (some (2 * 1000))) ∧
    (handleApiError 418 "teapot" (some "oops") none =
      .unknownStatus 418 ((some "oops").getD (defaultMsg 418 "teapot"))) ∧
    (handleApiError 418 "teapot" none none =
      .unknownStatus 418 (defaultMsg 418 "teapot")) :=
  c7_error_mapping 418 "teapot" (some "oops") none "2" 2
    (by decide) (by decide) (by decide)
theorem tryCandidates_exhaust (chain : String → Except ApiFailure RiotSummoner)
    (name : String) :
    ∀ cs : List String,
      (∀ t ∈ cs, ∃ e, chain t = Except.error e ∧
        strContainsSub (messageOf e) "Not Found" = true) →
      tryCandidates chain name cs = Except.error (.notResolved name) := by
  intro cs
  induction cs with
  | nil => intro _; rfl
  | cons t ts ih =>
    intro hall
    obtain ⟨e, he, hm⟩ := hall t (by simp)
    simp only [tryCandidates, he, hm, if_true]
    exact ih (fun x hx => hall x (List.mem_cons_of_mem _ hx))

theorem tryCandidates_skip (chain : String → Except ApiFailure RiotSummoner)
    (name : String) (pre rest : List String)
    (hpre : ∀ t ∈ pre, ∃ e, chain t = Except.error e ∧
      strContainsSub (messageOf e) "Not Found" = true) :
    tryCandidates chain name (pre ++ rest) = tryCandidates chain name rest := by
  induction pre with
  | nil => rfl
  | cons t ts ih =>
    obtain ⟨e, he, hm⟩ := hpre t (by simp)
    simp only [List.cons_append, tryCandidates, he, hm, if_true]
    exact ih (fun x hx => hpre x (List.mem_cons_of_mem _ hx))

/-- C8 (counterexample): the fallback loop dispatches on the *message
substring* `'Not Found'`, not on the failure kind. A BadRequest failure
whose body message contains `'Not Found'` (produced by a real 400 response
with that body) does not abort the loop: all five americas candidates are
consumed and the loop ends in the dedicated not-resolved failure instead of
propagating the BadRequest unchanged. -/
theorem c8_counterexample :
    (tryCandidates (fun _ => Except.error (.badRequest ( "Not Found"))) "x"
        [ "NA1", "BR1", "LAN", "LAS", "0000"] =
      Except.error (.notResolved "x")) ∧
    (tryCandidates (fun _ => Except.error (.badRequest ( "Not Found"))) "x"
        [ "NA1", "BR1", "LAN", "LAS", "0000"] ≠
      Except.error (.badRequest ( "Not Found"))) ∧
    (handleApiError 400 "Bad Request" (some ( "Not Found")) none =
      .badRequest ( "Not Found")) := by decide

/-- C8 (amended): for a bare handle on a valid region the resolver runs the
fixed continental candidate list (for americas: NA1, BR1, LAN, LAS, 0000)
through the two-step chain in order; a failure whose message contains the
substring `'Not Found'` — which includes every NotFound failure — advances
to the next candidate, a failure whose message does not contain it aborts
immediately and propagates unchanged, and exhausting the list yields the
dedicated failure naming the original handle and suggesting the explicit
`name#tag` format. -/
theorem c8_amended (chain : String → Except ApiFailure RiotSummoner)
    (name : String) (pre : List String) (tag : String) (rest : List String)
    (hpre : ∀ t ∈ pre, ∃ e, chain t = Except.error e ∧
      strContainsSub (messageOf e) "Not Found" = true) :
    (getDefaultTagLinesForRegion "na1" = some [ "NA1", "BR1", "LAN", "LAS", "0000"]) ∧
    (∀ chain2 : String → String → Except ApiFailure RiotSummoner, ∀ nm : String,
      strHasHash nm = false →
      getSummonerByName chain2 nm "na1" =
        tryCandidates (chain2 nm) nm [ "NA1", "BR1", "LAN", "LAS", "0000"]) ∧
    (strContainsSub (messageOf ApiFailure.notFound) "Not Found" = true) ∧
    (∀ s, chain tag = Except.ok s →
      tryCandidates chain name (pre ++ tag :: rest) = Except.ok s) ∧
    (∀ e, chain tag = Except.error e →
      strContainsSub (messageOf e) "Not Found" = false →
      tryCandidates chain name (pre ++ tag :: rest) = Except.error e) ∧
    (∀ cs : List String,
      (∀ t ∈ cs, ∃ e, chain t = Except.error e ∧
        strContainsSub (messageOf e) "Not Found" = true) →
      tryCandidates chain name cs = Except.error (.notResolved name)) ∧
    (messageOf (ApiFailure.notResolved name) =
      "Summoner \"" ++ name ++
      "\" not found. Please use full Riot ID format: gameName#tagLine (e.g., \"Faker#KR1\")") := by
  have htags : getDefaultTagLinesForRegion "na1" =
      some [ "NA1", "BR1", "LAN", "LAS", "0000"] := by decide
  refine ⟨htags, ?_, by decide, ?_, ?_, tryCandidates_exhaust chain name, rfl⟩
  · intro chain2 nm hh
    simp [getSummonerByName, hh, htags]
  · intro s hok
    rw [tryCandidates_skip chain name pre (tag :: rest) hpre]
    simp [tryCandidates, hok]
  · intro e herr hm
    rw [tryCandidates_skip chain name pre (tag :: rest) hpre]
    simp [tryCandidates, herr, hm]
/-- C8 (witness): the amended theorem with a chain that answers NotFound
for tagLine NA1 and succeeds on BR1. -/
theorem c8_amended_witness :
    (getDefaultTagLinesForRegion "na1" = some [ "NA1", "BR1", "LAN", "LAS", "0000"]) ∧
    (∀ chain2 : String → String → Except ApiFailure RiotSummoner, ∀ nm : String,
      strHasHash nm = false →
      getSummonerByName chain2 nm "na1" =
        tryCandidates (chain2 nm) nm [ "NA1", "BR1", "LAN", "LAS", "0000"]) ∧
    (strContainsSub (messageOf ApiFailure.notFound) "Not Found" = true) ∧
    (∀ s, (fun t => if t == "NA1" then Except.error ApiFailure.notFound
        else Except.ok (⟨ "i", "p", "x", 30⟩ : RiotSummoner)) "BR1" = Except.ok s →
      tryCandidates (fun t => if t == "NA1" then Except.error ApiFailure.notFound
        else Except.ok (⟨ "i", "p", "x", 30⟩ : RiotSummoner)) "x"
        ([ "NA1"] ++ "BR1" :: [ "LAN"]) = Except.ok s) ∧
    (∀ e, (fun t => if t == "NA1" then Except.error ApiFailure.notFound
        else Except.ok (⟨ "i", "p", "x", 30⟩ : RiotSummoner)) "BR1" = Except.error e →
      strContainsSub (messageOf e) "Not Found" = false →
      tryCandidates (fun t => if t == "NA1" then Except.error ApiFailure.notFound
        else Except.ok (⟨ "i", "p", "x", 30⟩ : RiotSummoner)) "x"
        ([ "NA1"] ++ "BR1" :: [ "LAN"]) = Except.error e) ∧
    (∀ cs : List String,
      (∀ t ∈ cs, ∃ e, (fun t => if t == "NA1" then Except.error ApiFailure.notFound
          else Except.ok (⟨ "i", "p", "x", 30⟩ : RiotSummoner)) t = Except.error e ∧
        strContainsSub (messageOf e) "Not Found" = true) →
      tryCandidates (fun t => if t == "NA1" then Except.error ApiFailure.notFound
        else Except.ok (⟨ "i", "p", "x", 30⟩ : RiotSummoner)) "x" cs =
        Except.error (.notResolved "x")) ∧
    (messageOf (ApiFailure.notResolved "x") =
      "Summoner \"" ++ "x" ++
      "\" not found. Please use full Riot ID format: gameName#tagLine (e.g., \"Faker#KR1\")") := by
  exact c8_amended
    (fun t => if t == "NA1" then Except.error ApiFailure.notFound
      else Except.ok (⟨ "i", "p", "x", 30⟩ : RiotSummoner)) "x" [ "NA1"] "BR1" [ "LAN"]
    (by
      intro t ht
      simp only [List.mem_singleton] at ht
      subst ht
      exact ⟨ApiFailure.notFound, by decide, by decide⟩)
/-- C9: the claim holds for region codes absent from the table that do not
name an `Object.prototype` member — they fail with the invalid-region
error and the call performs no transport invocation and leaves the state
untouched — and codes present in the table resolve case-insensitively to
their entry; but the absent codes `constructor` and `__proto__` (stable
under lower-casing, not in the table) are found truthy by the JS bracket
lookup: no invalid-region error is thrown, `buildUrl` produces the
malformed host `undefined.api.riotgames.com`, and the gateway proceeds to
a transport attempt (count 1), contradicting the claim at those inputs. -/
theorem c9_region_resolution (s r : String) (entry : RegionConfig) (α : Type)
    (resp : ApiResponse α) (st : GwState α) (puuid : String)
    (enabled : Bool) (ttlMs : Int)
    (hsome : REGIONS.lookup (jsToLower s) = some entry)
    (habs : REGIONS.lookup (jsToLower r) = none)
    (hnp : jsToLower r ∉ objectProtoKeys) :
    (getRegionConfig s = RegionResolution.entry entry) ∧
    (getRegionConfig r = RegionResolution.invalid) ∧
    (getSummonerByPuuidCall resp st r puuid enabled ttlMs =
      ((Except.error (.invalidRegion r), st), 0)) ∧
    (REGIONS.lookup (jsToLower "constructor") = none) ∧
    (getRegionConfig "constructor" = RegionResolution.junk) ∧
    (REGIONS.lookup (jsToLower "__proto__") = none) ∧
    (getRegionConfig "__proto__" = RegionResolution.junk) ∧
    (buildUrlHost "constructor" = some ( "undefined.api.riotgames.com")) ∧
    ((getSummonerByPuuidCall (⟨true, 200, "OK", none, none, 42⟩ : ApiResponse Nat)
        ⟨[], ⟨[], 1, 1000⟩, ⟨[], 1, 1000⟩, 0⟩ "constructor" "p" false 1).2 = 1) ∧
    (getRegionConfig "NA1" = RegionResolution.entry ⟨ "na1", "na1", "americas"⟩) ∧
    (getRegionConfig "Kr" = RegionResolution.entry ⟨ "kr", "kr", "asia"⟩) := by
  have hinv : getRegionConfig r = RegionResolution.invalid := by
    simp only [getRegionConfig, habs]
    rw [if_neg hnp]
  refine ⟨?_, hinv, ?_, by decide, by decide, by decide, by decide, by decide,
    by decide, by decide, by decide⟩
  · simp [getRegionConfig, hsome]
  · simp only [getSummonerByPuuidCall, hinv]

/-- C9 (witness): the theorem at `NA1` (present) and `la3` (absent and not
a prototype member). -/
theorem c9_region_resolution_witness :
    (getRegionConfig "NA1" = RegionResolution.entry ⟨ "na1", "na1", "americas"⟩) ∧
    (getRegionConfig "la3" = RegionResolution.invalid) ∧
    (getSummonerByPuuidCall (⟨true, 200, "OK", none, none, 42⟩ : ApiResponse Nat)
        ⟨[], ⟨[], 1, 1000⟩, ⟨[], 1, 1000⟩, 0⟩ "la3" "p" true 1800000 =
      ((Except.error (.invalidRegion "la3"),
        (⟨[], ⟨[], 1, 1000⟩, ⟨[], 1, 1000⟩, 0⟩ : GwState Nat)), 0)) ∧
    (REGIONS.lookup (jsToLower "constructor") = none) ∧
    (getRegionConfig "constructor" = RegionResolution.junk) ∧
    (REGIONS.lookup (jsToLower "__proto__") = none) ∧
    (getRegionConfig "__proto__" = RegionResolution.junk) ∧
    (buildUrlHost "constructor" = some ( "undefined.api.riotgames.com")) ∧
    ((getSummonerByPuuidCall (⟨true, 200, "OK", none, none, 42⟩ : ApiResponse Nat)
        ⟨[], ⟨[], 1, 1000⟩, ⟨[], 1, 1000⟩, 0⟩ "constructor" "p" false 1).2 = 1) ∧
    (getRegionConfig "NA1" = RegionResolution.entry ⟨ "na1", "na1", "americas"⟩) ∧
    (getRegionConfig "Kr" = RegionResolution.entry ⟨ "kr", "kr", "asia"⟩) :=
  c9_region_resolution "NA1" "la3" ⟨ "na1", "na1", "americas"⟩ Nat
    ⟨true, 200, "OK", none, none, 42⟩ ⟨[], ⟨[], 1, 1000⟩, ⟨[], 1, 1000⟩, 0⟩ "p"
    true 1800000 (by decide) (by decide) (by decide)

/-- C10: a handle with two or more `'#'` separators is not rejected by the
public summoner lookup: it takes the segment before the first `'#'` as
gameName and the segment between the first and second `'#'` as tagLine,
silently ignores the remaining segments, and proceeds with the two-step
chain on that pair. -/
theorem c10_multi_hash (chain : String → String → Except ApiFailure RiotSummoner)
    (name region : String) (hc : strHasHash name = true) :
    (getSummonerByName chain name region =
      chain (jsTrim ((jsSplitHash name).getD 0 ""))
        (jsTrim ((jsSplitHash name).getD 1 ""))) ∧
    (getSummonerByName chain "a#b#c" region = chain "a" "b") ∧
    (jsSplitHash "a#b#c" = [ "a", "b", "c"]) := by
  refine ⟨?_, rfl, by decide⟩
  simp [getSummonerByName, hc]

/-- C10 (witness): the theorem at the three-segment handle `x#y#z`. -/
theorem c10_multi_hash_witness :
    (getSummonerByName (fun g t => Except.ok (⟨g, t, g, 1⟩ : RiotSummoner)) "x#y#z" "na1" =
      (fun g t => Except.ok (⟨g, t, g, 1⟩ : RiotSummoner))
        (jsTrim ((jsSplitHash "x#y#z").getD 0 ""))
        (jsTrim ((jsSplitHash "x#y#z").getD 1 ""))) ∧
    (getSummonerByName (fun g t => Except.ok (⟨g, t, g, 1⟩ : RiotSummoner)) "a#b#c" "na1" =
      (fun g t => Except.ok (⟨g, t, g, 1⟩ : RiotSummoner)) "a" "b") ∧
    (jsSplitHash "a#b#c" = [ "a", "b", "c"]) :=
  c10_multi_hash (fun g t => Except.ok (⟨g, t, g, 1⟩ : RiotSummoner)) "x#y#z" "na1"
    (by decide)
